import Mathlib

/-!
Verification of the Upload-Analyze Session Controller of the VoiceGuard
front-end (`src/app/page.tsx`), as a shallow embedding in Lean 4.

The page owns four pieces of React state (`file`, `result`, `isLoading`,
`error`) and three transition functions (`onDrop`, `handleAnalyze`,
`handleReset`).  The network call inside `handleAnalyze` is modelled by an
explicit `FetchOutcome` argument describing how the single `fetch` settles;
JavaScript numbers are modelled as rationals (`ℚ`).
-/

/-- A user-chosen file: name plus raw bytes (the fields of a DOM `File`
that the page actually uses). -/
structure FileHandle where
  name : String
  bytes : List Nat
deriving DecidableEq

/-- The classifier's verdict, field `prediction` of the API response. -/
inductive Prediction where
  | spoof
  | bonafide
deriving DecidableEq

/-- The `probabilities` object of the API response. -/
structure Probabilities where
  bonafide : ℚ
  spoof : ℚ
deriving DecidableEq

/-- The API response body (`interface AnalysisResult` in `page.tsx`). -/
structure AnalysisResult where
  prediction : Prediction
  probabilities : Probabilities
  spectrogram_png : String
deriving DecidableEq

/-- Indexing `result.probabilities[result.prediction]` from `ResultDisplay`. -/
def Probabilities.ofPrediction (p : Probabilities) : Prediction → ℚ
  | .bonafide => p.bonafide
  | .spoof => p.spoof

/-- The four `useState` variables of `VoiceGuardPage`, gathered into one
session state. -/
structure SessionState where
  file : Option FileHandle
  result : Option AnalysisResult
  isLoading : Bool
  error : Option String
deriving DecidableEq

/-- The initial state: all `useState` initialisers of `VoiceGuardPage`. -/
def initState : SessionState :=
  { file := none, result := none, isLoading := false, error := none }

/-- How the JSON body of a settled response parses: either the valid
schema, or malformed (in which case `response.json()` throws, carrying an
optional message). -/
inductive JsonBody where
  | valid (r : AnalysisResult)
  | malformed (msg : Option String)

/-- How the single `fetch` call settles: either a network-level rejection
(with the optional `err.message`), or an HTTP response with a status code,
a status text and a body. -/
inductive FetchOutcome where
  | networkError (msg : Option String)
  | response (status : Nat) (statusText : String) (body : JsonBody)

/-- `response.ok`: HTTP status in the 2xx success range. -/
def responseOk (status : Nat) : Bool :=
  200 ≤ status && status ≤ 299

/-- The fallback text of the `catch` clause in `handleAnalyze`. -/
def fallbackMessage : String :=
  "An unexpected error occurred. Please try again."

/-- `err.message || fallback` from the `catch` clause: the thrown message
when it is present and non-empty (JavaScript treats `""` as falsy),
otherwise the generic fallback. -/
def errMessage : Option String → String
  | none => fallbackMessage
  | some m => if m = "" then fallbackMessage else m

/-- The one HTTP request `handleAnalyze` issues: URL, method, and the
multipart form parts (`FormData` field name paired with the file). -/
structure HttpRequest where
  url : String
  method : String
  formParts : List (String × FileHandle)
deriving DecidableEq

/-- The request built in `handleAnalyze`: POST to the hardcoded
`/predict` endpoint with a single form part named `file`. -/
def predictRequest (f : FileHandle) : HttpRequest :=
  { url := "http://127.0.0.1:8000/predict"
    method := "POST"
    formParts := [("file", f)] }

/-- The `try` block of `handleAnalyze` after `fetch` settles: a non-2xx
status throws ``Server error: ${response.statusText}``; otherwise the body
is parsed, which either yields the result or throws (malformed JSON).
`Except.error` carries the optional message of the thrown value. -/
def tryBlock : FetchOutcome → Except (Option String) AnalysisResult
  | .networkError msg => .error msg
  | .response status statusText body =>
    if responseOk status then
      match body with
      | .valid r => .ok r
      | .malformed msg => .error msg
    else
      .error (some ("Server error: " ++ statusText))

/-- The synchronous prefix of `handleAnalyze` once the file guard passed:
`setIsLoading(true); setError(null); setResult(null)`. -/
def analyzeStart (s : SessionState) : SessionState :=
  { s with isLoading := true, error := none, result := none }

/-- The settlement of `handleAnalyze`: the `try`/`catch` result applied to
the state, then the `finally` clause `setIsLoading(false)`. -/
def settle (outcome : FetchOutcome) (s : SessionState) : SessionState :=
  let s2 :=
    match tryBlock outcome with
    | .ok data => { s with result := some data }
    | .error e => { s with error := some (errMessage e) }
  { s2 with isLoading := false }

/-- `handleAnalyze` from `page.tsx`: no-op when no file is selected
(`if (!file) return`), otherwise start, issue the POST, and settle
according to the fetch outcome.  Returns the new state together with the
request issued (`none` when no network call happened). -/
def handleAnalyze (outcome : FetchOutcome) (s : SessionState) :
    SessionState × Option HttpRequest :=
  match s.file with
  | none => (s, none)
  | some f => (settle outcome (analyzeStart s), some (predictRequest f))

/-- `onDrop` from `page.tsx`: on a non-empty accepted-files list, clear
the error and select the first file; otherwise do nothing. -/
def onDrop (acceptedFiles : List FileHandle) (s : SessionState) : SessionState :=
  match acceptedFiles with
  | [] => s
  | f :: _ => { s with error := none, file := some f }

/-- `handleReset` from `page.tsx`: `setFile(null); setResult(null);
setError(null)`.  Note it does not touch `isLoading`. -/
def handleReset (s : SessionState) : SessionState :=
  { s with file := none, result := none, error := none }

/-- The `disabled` attribute of `AnalyzeButton`: `!file || isLoading`. -/
def analyzeDisabled (s : SessionState) : Bool :=
  s.file.isNone || s.isLoading

/-- Clicking the Analyze button: a disabled button does not fire its
`onClick`, so the click is a no-op exactly when `analyzeDisabled` holds;
otherwise it runs `handleAnalyze`. -/
def clickAnalyze (outcome : FetchOutcome) (s : SessionState) :
    SessionState × Option HttpRequest :=
  if analyzeDisabled s then (s, none) else handleAnalyze outcome s

/-- The user-triggerable events of the page: dropping files, clicking
Analyze (bundled with how the resulting request would settle), and reset. -/
inductive UiEvent where
  | drop (acceptedFiles : List FileHandle)
  | analyze (outcome : FetchOutcome)
  | reset

/-- One step of the session: the state transition of an event, together
with the request it issues (if any). -/
def stepEvent (e : UiEvent) (s : SessionState) : SessionState × Option HttpRequest :=
  match e with
  | .drop files => (onDrop files s, none)
  | .analyze outcome => clickAnalyze outcome s
  | .reset => (handleReset s, none)

/-- Running a sequence of events from the initial state. -/
def runEvents (es : List UiEvent) : SessionState :=
  es.foldl (fun s e => (stepEvent e s).1) initState

/-- The `toFixed(2)` result as an integer count of hundredths:
`round(x * 100)`. -/
def fixed2Int (x : ℚ) : ℤ :=
  round (x * 100)

/-- The numeric value denoted by the `toFixed(2)` rendering of `x`. -/
def fixed2Val (x : ℚ) : ℚ :=
  (fixed2Int x : ℚ) / 100

/-- Printing a count of hundredths as a decimal string: integer part, a
dot, and the two-digit fractional part (for the non-negative values the
page renders). -/
def fixed2String (n : ℤ) : String :=
  toString (n / 100) ++ "." ++ (if n % 100 < 10 then "0" else "") ++ toString (n % 100)

/-- `x.toFixed(2)` as a string. -/
def jsToFixed2 (x : ℚ) : String :=
  fixed2String (fixed2Int x)

/-- The `confidence` value of `ResultDisplay`:
`(result.probabilities[result.prediction] * 100).toFixed(2)`. -/
def confidenceDisplay (r : AnalysisResult) : String :=
  jsToFixed2 (r.probabilities.ofPrediction r.prediction * 100)

/-- The spoof-probability percentage string rendered by `ResultDisplay`:
`(result.probabilities.spoof * 100).toFixed(2)`. -/
def spoofPercentDisplay (r : AnalysisResult) : String :=
  jsToFixed2 (r.probabilities.spoof * 100)

/-- The bonafide-probability percentage string rendered by
`ResultDisplay`: `(result.probabilities.bonafide * 100).toFixed(2)`. -/
def bonafidePercentDisplay (r : AnalysisResult) : String :=
  jsToFixed2 (r.probabilities.bonafide * 100)

/-- Evaluating `toFixed(2)` at a value known to round to `n` hundredths. -/
theorem jsToFixed2_eq (x : ℚ) (n : ℤ) (h : x * 100 = (n : ℚ)) :
    jsToFixed2 x = fixed2String n := by
  rw [jsToFixed2, fixed2Int, h, round_intCast]

/-- A concrete audio file used to instantiate theorems. -/
def sampleFile : FileHandle :=
  { name := "sample.wav", bytes := [82, 73, 70, 70] }

/-- A concrete state with a selected file, not loading. -/
def loadedState : SessionState :=
  { file := some sampleFile, result := none, isLoading := false, error := none }

/-- A concrete state with a request in flight. -/
def loadingState : SessionState :=
  { file := some sampleFile, result := none, isLoading := true, error := none }

/-- The concrete successful response body of testable property 4 of the
spec. -/
def sampleResult : AnalysisResult :=
  { prediction := .bonafide
    probabilities := { bonafide := 92/100, spoof := 8/100 }
    spectrogram_png := "data:image/png;base64,AAAA" }

/-- A concrete network failure message. -/
def netFailureMsg : Option String :=
  some "Failed to fetch"

/-- The `finally` clause always leaves `isLoading` false after settlement. -/
theorem settle_isLoading (outcome : FetchOutcome) (s : SessionState) :
    (settle outcome s).isLoading = false := by
  unfold settle
  cases tryBlock outcome <;> rfl

/-- The thrown server-error message is never the empty string. -/
theorem serverError_append_ne_empty (st : String) : "Server error: " ++ st ≠ "" := by
  intro h
  have h2 : ("Server error: " ++ st).length = 0 := by rw [h]; rfl
  rw [String.length_append] at h2
  have h3 : ("Server error: " : String).length = 14 := by decide
  omega

/-- C1: in any session state with `isLoading = true`, invoking analyze
(clicking the Analyze button, whose `disabled` attribute includes
`isLoading`) is a no-op: the state is unchanged and no request is issued,
so at most one request is ever in flight. -/
theorem analyze_click_noop_when_loading (outcome : FetchOutcome) (s : SessionState)
    (h : s.isLoading = true) : clickAnalyze outcome s = (s, none) := by
  simp [clickAnalyze, analyzeDisabled, h]

/-- C1 witness: the no-op at a concrete loading state. -/
theorem analyze_click_noop_when_loading_witness :
    loadingState.isLoading = true ∧
    clickAnalyze (.networkError none) loadingState = (loadingState, none) :=
  ⟨rfl, analyze_click_noop_when_loading (.networkError none) loadingState rfl⟩

/-- C6: in any session state with no selected file, `handleAnalyze` is a
no-op (`if (!file) return`): the state is unchanged and no network call is
issued. -/
theorem analyze_noop_without_file (outcome : FetchOutcome) (s : SessionState)
    (h : s.file = none) : handleAnalyze outcome s = (s, none) := by
  simp [handleAnalyze, h]

/-- C6 witness: the no-op at the initial state. -/
theorem analyze_noop_without_file_witness :
    initState.file = none ∧
    handleAnalyze (.networkError none) initState = (initState, none) :=
  ⟨rfl, analyze_noop_without_file (.networkError none) initState rfl⟩

/-- C5: with a file selected and not loading, `handleAnalyze` first moves
to the started state (`isLoading := true`, `error` and `result` cleared),
issues exactly one POST request to the `/predict` endpoint carrying the
selected file as the single form part named `file`, and the settled state
always has `isLoading = false`. -/
theorem analyze_starts_and_posts_once (s : SessionState) (f : FileHandle)
    (outcome : FetchOutcome) (hf : s.file = some f) (hl : s.isLoading = false) :
    handleAnalyze outcome s = (settle outcome (analyzeStart s), some (predictRequest f)) ∧
    analyzeStart s = { s with isLoading := true, error := none, result := none } ∧
    (predictRequest f).method = "POST" ∧
    (predictRequest f).url = "http://127.0.0.1:8000" ++ "/predict" ∧
    (predictRequest f).formParts = [("file", f)] ∧
    (handleAnalyze outcome s).1.isLoading = false := by
  have hurl : ("http://127.0.0.1:8000/predict" : String) =
      "http://127.0.0.1:8000" ++ "/predict" := by decide
  refine ⟨by simp [handleAnalyze, hf], rfl, rfl, hurl, rfl, ?_⟩
  simp [handleAnalyze, hf, settle_isLoading]

/-- C5 witness: the analyze transition at a concrete loaded state. -/
theorem analyze_starts_and_posts_once_witness :
    loadedState.file = some sampleFile ∧ loadedState.isLoading = false ∧
    (handleAnalyze (.networkError none) loadedState =
      (settle (.networkError none) (analyzeStart loadedState), some (predictRequest sampleFile)) ∧
     analyzeStart loadedState =
      { loadedState with isLoading := true, error := none, result := none } ∧
     (predictRequest sampleFile).method = "POST" ∧
     (predictRequest sampleFile).url = "http://127.0.0.1:8000" ++ "/predict" ∧
     (predictRequest sampleFile).formParts = [("file", sampleFile)] ∧
     (handleAnalyze (.networkError none) loadedState).1.isLoading = false) :=
  ⟨rfl, rfl, analyze_starts_and_posts_once loadedState sampleFile (.networkError none) rfl rfl⟩

/-- C7: dropping a non-empty accepted-files list selects the first entry,
clears the error, leaves `result` and `isLoading` unchanged, and issues no
network call.  The pre-state `s` is arbitrary, so this holds after each
call of any sequence of drops. -/
theorem drop_selects_first_and_clears_error (s : SessionState) (f : FileHandle)
    (rest : List FileHandle) :
    (stepEvent (.drop (f :: rest)) s).1.file = some f ∧
    (stepEvent (.drop (f :: rest)) s).1.error = none ∧
    (stepEvent (.drop (f :: rest)) s).1.result = s.result ∧
    (stepEvent (.drop (f :: rest)) s).1.isLoading = s.isLoading ∧
    (stepEvent (.drop (f :: rest)) s).2 = none :=
  ⟨rfl, rfl, rfl, rfl, rfl⟩

/-- C8 counterexample: `handleReset` does not touch `isLoading`, so from
a state with a request in flight the claimed post-state (`isLoading =
false`) fails. -/
theorem reset_claim_counterexample :
    ¬ ((handleReset loadingState).file = none ∧
       (handleReset loadingState).result = none ∧
       (handleReset loadingState).error = none ∧
       (handleReset loadingState).isLoading = false) := by
  decide

/-- C8 amended: `handleReset` clears `file`, `result` and `error`
unconditionally and leaves `isLoading` unchanged — in particular the
post-state has `isLoading = false` whenever reset is invoked outside a
pending request. -/
theorem reset_clears_selection_result_error (s : SessionState) :
    handleReset s =
      { file := none, result := none, isLoading := s.isLoading, error := none } :=
  rfl

/-- C2: a 2xx settlement with the valid body of testable property 4
leaves `isLoading = false`, stores the result (whose prediction is
`bonafide`), keeps `errorMessage` null, and the derived confidence
renders as `"92.00"`. -/
theorem analyze_success_settlement (s : SessionState) (f : FileHandle)
    (status : Nat) (statusText : String)
    (hf : s.file = some f) (hok : responseOk status = true) :
    (handleAnalyze (.response status statusText (.valid sampleResult)) s).1.isLoading = false ∧
    (handleAnalyze (.response status statusText (.valid sampleResult)) s).1.result =
      some sampleResult ∧
    sampleResult.prediction = .bonafide ∧
    (handleAnalyze (.response status statusText (.valid sampleResult)) s).1.error = none ∧
    confidenceDisplay sampleResult = "92.00" := by
  refine ⟨?_, ?_, rfl, ?_, ?_⟩
  · simp [handleAnalyze, hf, settle_isLoading]
  · simp [handleAnalyze, hf, settle, tryBlock, hok, analyzeStart]
  · simp [handleAnalyze, hf, settle, tryBlock, hok, analyzeStart]
  · rw [confidenceDisplay,
      jsToFixed2_eq _ 9200 (by norm_num [sampleResult, Probabilities.ofPrediction])]
    decide

/-- C2 witness: the successful settlement at status 200 from a concrete
loaded state. -/
theorem analyze_success_settlement_witness :
    loadedState.file = some sampleFile ∧ responseOk 200 = true ∧
    ((handleAnalyze (.response 200 "OK" (.valid sampleResult)) loadedState).1.isLoading = false ∧
     (handleAnalyze (.response 200 "OK" (.valid sampleResult)) loadedState).1.result =
       some sampleResult ∧
     sampleResult.prediction = .bonafide ∧
     (handleAnalyze (.response 200 "OK" (.valid sampleResult)) loadedState).1.error = none ∧
     confidenceDisplay sampleResult = "92.00") :=
  ⟨rfl, rfl, analyze_success_settlement loadedState sampleFile 200 "OK" rfl rfl⟩

/-- C3: a non-2xx settlement leaves `isLoading = false`, no result, and
an error message `"Server error: " ++ statusText`, which contains the
status text. -/
theorem analyze_server_error_settlement (s : SessionState) (f : FileHandle)
    (status : Nat) (statusText : String) (body : JsonBody)
    (hf : s.file = some f) (hbad : responseOk status = false) :
    (handleAnalyze (.response status statusText body) s).1.isLoading = false ∧
    (handleAnalyze (.response status statusText body) s).1.result = none ∧
    (handleAnalyze (.response status statusText body) s).1.error =
      some ("Server error: " ++ statusText) ∧
    ∃ pre suf, "Server error: " ++ statusText = pre ++ statusText ++ suf := by
  have herr : errMessage (some ("Server error: " ++ statusText)) =
      "Server error: " ++ statusText := by
    simp only [errMessage, if_neg (serverError_append_ne_empty statusText)]
  refine ⟨?_, ?_, ?_, "Server error: ", "", (String.append_empty _).symm⟩
  · simp [handleAnalyze, hf, settle_isLoading]
  · simp [handleAnalyze, hf, settle, tryBlock, hbad, analyzeStart]
  · simp [handleAnalyze, hf, settle, tryBlock, hbad, analyzeStart, herr]

/-- C3 witness: a 500 response with status text "Internal Server Error"
from a concrete loaded state. -/
theorem analyze_server_error_settlement_witness :
    loadedState.file = some sampleFile ∧ responseOk 500 = false ∧
    ((handleAnalyze (.response 500 "Internal Server Error" (.malformed none)) loadedState).1.isLoading = false ∧
     (handleAnalyze (.response 500 "Internal Server Error" (.malformed none)) loadedState).1.result = none ∧
     (handleAnalyze (.response 500 "Internal Server Error" (.malformed none)) loadedState).1.error =
       some ("Server error: " ++ "Internal Server Error") ∧
     ∃ pre suf, "Server error: " ++ "Internal Server Error" =
       pre ++ "Internal Server Error" ++ suf) :=
  ⟨rfl, rfl,
    analyze_server_error_settlement loadedState sampleFile 500 "Internal Server Error"
      (.malformed none) rfl rfl⟩

/-- C4: a network-level failure, or a malformed body on a 2xx response,
settles with `isLoading = false`, no result, and a non-empty error
message equal to the underlying failure message or to the generic
fallback when none (or an empty one) is available. -/
theorem analyze_request_error_settlement (s : SessionState) (f : FileHandle)
    (msg : Option String) (hf : s.file = some f) :
    ((handleAnalyze (.networkError msg) s).1.isLoading = false ∧
     (handleAnalyze (.networkError msg) s).1.result = none ∧
     (handleAnalyze (.networkError msg) s).1.error = some (errMessage msg)) ∧
    (∀ status statusText, responseOk status = true →
      (handleAnalyze (.response status statusText (.malformed msg)) s).1.isLoading = false ∧
      (handleAnalyze (.response status statusText (.malformed msg)) s).1.result = none ∧
      (handleAnalyze (.response status statusText (.malformed msg)) s).1.error =
        some (errMessage msg)) ∧
    errMessage msg ≠ "" ∧
    ((∃ m, msg = some m ∧ m ≠ "" ∧ errMessage msg = m) ∨ errMessage msg = fallbackMessage) := by
  refine ⟨⟨?_, ?_, ?_⟩, fun status statusText hok => ⟨?_, ?_, ?_⟩, ?_, ?_⟩
  · simp [handleAnalyze, hf, settle_isLoading]
  · simp [handleAnalyze, hf, settle, tryBlock, analyzeStart]
  · simp [handleAnalyze, hf, settle, tryBlock, analyzeStart]
  · simp [handleAnalyze, hf, settle_isLoading]
  · simp [handleAnalyze, hf, settle, tryBlock, hok, analyzeStart]
  · simp [handleAnalyze, hf, settle, tryBlock, hok, analyzeStart]
  · cases msg with
    | none => decide
    | some m =>
      rcases eq_or_ne m "" with hm | hm
      · subst hm; decide
      · simpa [errMessage, if_neg hm] using hm
  · cases msg with
    | none => exact Or.inr rfl
    | some m =>
      rcases eq_or_ne m "" with hm | hm
      · subst hm; exact Or.inr rfl
      · exact Or.inl ⟨m, rfl, hm, by simp [errMessage, if_neg hm]⟩

/-- C4 witness: a connection-refused style failure with message
"Failed to fetch" from a concrete loaded state. -/
theorem analyze_request_error_settlement_witness :
    loadedState.file = some sampleFile ∧
    (((handleAnalyze (.networkError netFailureMsg) loadedState).1.isLoading = false ∧
      (handleAnalyze (.networkError netFailureMsg) loadedState).1.result = none ∧
      (handleAnalyze (.networkError netFailureMsg) loadedState).1.error =
        some (errMessage netFailureMsg)) ∧
     (∀ status statusText, responseOk status = true →
       (handleAnalyze (.response status statusText (.malformed netFailureMsg)) loadedState).1.isLoading = false ∧
       (handleAnalyze (.response status statusText (.malformed netFailureMsg)) loadedState).1.result = none ∧
       (handleAnalyze (.response status statusText (.malformed netFailureMsg)) loadedState).1.error =
         some (errMessage netFailureMsg)) ∧
     errMessage netFailureMsg ≠ "" ∧
     ((∃ m, netFailureMsg = some m ∧ m ≠ "" ∧ errMessage netFailureMsg = m) ∨
      errMessage netFailureMsg = fallbackMessage)) :=
  ⟨rfl, analyze_request_error_settlement loadedState sampleFile netFailureMsg rfl⟩

/-- Every single event step preserves the exclusivity of `result` and
`error`. -/
theorem stepEvent_preserves_exclusive (e : UiEvent) (s : SessionState)
    (h : s.result = none ∨ s.error = none) :
    (stepEvent e s).1.result = none ∨ (stepEvent e s).1.error = none := by
  cases e with
  | drop files =>
    cases files with
    | nil => exact h
    | cons f rest => exact Or.inr rfl
  | reset => exact Or.inl rfl
  | analyze outcome =>
    show (clickAnalyze outcome s).1.result = none ∨ (clickAnalyze outcome s).1.error = none
    unfold clickAnalyze
    cases hd : analyzeDisabled s with
    | true => simpa using h
    | false =>
      simp only [Bool.false_eq_true, if_false]
      cases hsf : s.file with
      | none => simpa [handleAnalyze, hsf] using h
      | some f =>
        cases htb : tryBlock outcome with
        | ok data => exact Or.inr (by simp [handleAnalyze, hsf, settle, htb, analyzeStart])
        | error e => exact Or.inl (by simp [handleAnalyze, hsf, settle, htb, analyzeStart])

/-- Event folding preserves the exclusivity of `result` and `error`. -/
theorem foldEvents_preserves_exclusive (es : List UiEvent) (s : SessionState)
    (h : s.result = none ∨ s.error = none) :
    (es.foldl (fun st e => (stepEvent e st).1) s).result = none ∨
    (es.foldl (fun st e => (stepEvent e st).1) s).error = none := by
  induction es generalizing s with
  | nil => exact h
  | cons e rest ih => exact ih _ (stepEvent_preserves_exclusive e s h)

/-- C9: in every state reachable from the initial empty state by drops,
analyze clicks (with either settlement outcome) and resets,
`analysisResult` and `errorMessage` are never both non-null. -/
theorem result_error_never_both_set (es : List UiEvent) :
    (runEvents es).result = none ∨ (runEvents es).error = none :=
  foldEvents_preserves_exclusive es initState (Or.inl rfl)

/-- C10: for any result whose probabilities sum to 1, the rendered spoof
and bonafide percentages (whose numeric values are `fixed2Val` of the
respective `probability * 100`) sum to 100 within `toFixed(2)` rounding
error. -/
theorem percent_displays_sum_approx_100 (r : AnalysisResult)
    (h : r.probabilities.bonafide + r.probabilities.spoof = 1) :
    spoofPercentDisplay r = fixed2String (fixed2Int (r.probabilities.spoof * 100)) ∧
    bonafidePercentDisplay r = fixed2String (fixed2Int (r.probabilities.bonafide * 100)) ∧
    |fixed2Val (r.probabilities.spoof * 100) + fixed2Val (r.probabilities.bonafide * 100) - 100|
      ≤ 1 / 100 := by
  refine ⟨rfl, rfl, ?_⟩
  have ha := abs_sub_round (r.probabilities.spoof * 100 * 100)
  have hb := abs_sub_round (r.probabilities.bonafide * 100 * 100)
  rw [abs_le] at ha hb
  unfold fixed2Val fixed2Int
  rw [abs_le]
  constructor <;> linarith [ha.1, ha.2, hb.1, hb.2]

/-- C10 witness: the percentage sum bound at the concrete sample result. -/
theorem percent_displays_sum_approx_100_witness :
    sampleResult.probabilities.bonafide + sampleResult.probabilities.spoof = 1 ∧
    (spoofPercentDisplay sampleResult =
       fixed2String (fixed2Int (sampleResult.probabilities.spoof * 100)) ∧
     bonafidePercentDisplay sampleResult =
       fixed2String (fixed2Int (sampleResult.probabilities.bonafide * 100)) ∧
     |fixed2Val (sampleResult.probabilities.spoof * 100) +
        fixed2Val (sampleResult.probabilities.bonafide * 100) - 100| ≤ 1 / 100) :=
  ⟨by norm_num [sampleResult],
   percent_displays_sum_approx_100 sampleResult (by norm_num [sampleResult])⟩
